import Mathlib

/-!
Shallow embedding of the ThirdEye front-end session pipeline
(`src/App.tsx`): image deduplication, path normalization, carousel
navigation, and the `startListening` / `stopListening` / `speakResponse`
orchestration, together with proofs of the specified properties.

JS strings are modelled as lists of characters (`Str`); external
collaborators (microphone, transcription, query backend, TTS) are
modelled by oracle parameters describing their outcome, and observable
side effects (network requests, toasts, audio playback) are collected in
an explicit effect list.
-/

namespace ThirdEye

/-- JS strings, modelled as character lists. -/
abbrev Str := List Char

/-- One record of the `image_metadata` array of a backend response
(interface `ImageMetadata`, App.tsx lines 15-22). -/
structure ImageMetadata where
  id : Int
  shot_at_when : Str
  shot_at_where : Str
  people_involved : List Str
  image_description : Str
  image_path : Str
deriving DecidableEq, Repr

/-- Helper for the stateful `filter` of `uniqueImages`: `seen` is the set
of already-encountered `image_path` values (App.tsx lines 56-62). -/
def uniqueImagesAux : List Str → List ImageMetadata → List ImageMetadata
  | _, [] => []
  | seen, img :: rest =>
    if img.image_path ∈ seen then uniqueImagesAux seen rest
    else img :: uniqueImagesAux (img.image_path :: seen) rest

/-- `uniqueImages` (App.tsx lines 55-63): drop every image whose
`image_path` was already seen, keeping first occurrences in order. -/
def uniqueImages (images : List ImageMetadata) : List ImageMetadata :=
  uniqueImagesAux [] images

/-- `s.startsWith(pre)` on JS strings (character lists). -/
def startsWithStr : Str → Str → Bool
  | _, [] => true
  | [], _ :: _ => false
  | c :: cs, p :: ps => c == p && startsWithStr cs ps

/-- The display-root `'/images/'` used by `getImagePath`. -/
def IMAGES : Str := "/images/".data

/-- `getImagePath` (App.tsx lines 66-77): paths already starting with
`/images/` are used as-is, otherwise the `/images/` root is prepended. -/
def getImagePath (p : Str) : Str :=
  if startsWithStr p IMAGES then p else IMAGES ++ p

/-- Observable side effects of the session pipeline: device/network
requests, toast notifications, and audio playback. -/
inductive Effect where
  | micRequest : Effect
  | transcriptionRequest : Effect
  | queryRequest : Str → Effect
  | ttsRequest : Str → Effect
  | playAudio : Effect
  | toastError : Str → Effect
  | toastWarning : Str → Effect
  | fallbackSpeak : Str → Effect
deriving DecidableEq, Repr

/-- Remote calls (transcription, query backend, TTS); the microphone
request, local playback, fallback speech and toasts are not network
calls. -/
def Effect.isNetworkCall : Effect → Bool
  | .transcriptionRequest => true
  | .queryRequest _ => true
  | .ttsRequest _ => true
  | _ => false

/-- The backend query call issued by `stopListening`. -/
def Effect.isQueryCall : Effect → Bool
  | .queryRequest _ => true
  | _ => false

/-- Any Speech Playback activity: the TTS request, the audio playback,
or the local fallback synthesizer. -/
def Effect.isSpeechCall : Effect → Bool
  | .ttsRequest _ => true
  | .playAudio => true
  | .fallbackSpeak _ => true
  | _ => false

/-- An error-status toast (warnings are non-blocking and not counted). -/
def Effect.isErrorToast : Effect → Bool
  | .toastError _ => true
  | _ => false

/-- The React component state of `AppContent` (App.tsx lines 36-44):
`useState` hooks plus the `chunksRef` chunk buffer (chunks abstracted to
their byte sizes). The image cursor is an `Int` because the carousel
arithmetic is JS number arithmetic. -/
structure UIState where
  isListening : Bool
  isProcessing : Bool
  transcript : Str
  response : Str
  images : List ImageMetadata
  currentImageIndex : Int
  imageLoadError : Option Str
  audioChunks : List Nat
deriving DecidableEq, Repr

/-- Toast description on `startListening` failure (App.tsx line 165). -/
def msgStartFailed : Str :=
  "Failed to start recording. Please check your microphone permissions.".data

/-- Error for an empty finalized recording (App.tsx line 193). -/
def msgNoAudio : Str := "No audio data recorded".data

/-- Error when the transcription request itself throws. -/
def msgTranscriptionFailed : Str := "Failed to process audio. Please try again.".data

/-- Error for empty/missing transcription text (App.tsx line 230). -/
def msgNoTranscription : Str := "No transcription received".data

/-- Error when the backend fetch throws or returns unparsable JSON. -/
def msgQueryFailed : Str := "Failed to process your query".data

/-- Error for a non-2xx backend status (App.tsx line 249; the concrete
status code interpolated into the message is abstracted away). -/
def msgHttpError : Str := "HTTP error! status".data

/-- Error for a falsy `story_description` (App.tsx line 255). -/
def msgNoStory : Str := "No story description found in response".data

/-- Error for a non-array `image_metadata` (App.tsx line 259). -/
def msgBadMeta : Str := "Invalid image metadata format in response".data

/-- Warning toast on TTS failure (App.tsx line 322). -/
def msgSpeechWarn : Str := "Failed to generate speech. Playing in fallback voice.".data

/-- Toast/state text for a failed image load (App.tsx lines 81-82). -/
def msgFailedLoad : Str := "Failed to load image: ".data

/-- JS truthiness of the `story_description` field: `undefined` (absent)
and the empty string are both falsy (`!data.story_description`). -/
def falsyStr : Option Str → Bool
  | none => true
  | some s => s.isEmpty

/-- The parsed backend response as `stopListening` inspects it:
`okFlag` is `response.ok`; `story_description = none` models an absent
field; `image_metadata = none` models a non-array field (so that
`Array.isArray` fails), `some l` an array. -/
structure QueryData where
  okFlag : Bool
  story_description : Option Str
  image_metadata : Option (List ImageMetadata)
deriving DecidableEq, Repr

/-- `startListening` (App.tsx lines 115-171). The chunk buffer,
transcript, response and processing flag are reset before the
microphone is requested; `micOk` is the outcome of `getUserMedia`
(false = permission denied / device unavailable, which throws into the
catch block that only shows an error toast). On success the recorder is
started and `isListening` becomes true. -/
def startListening (micOk : Bool) (s : UIState) : UIState × List Effect :=
  let s1 := { s with audioChunks := [], transcript := [], response := [],
                     isProcessing := false }
  if micOk then
    ({ s1 with isListening := true }, [Effect.micRequest])
  else
    (s1, [Effect.micRequest, Effect.toastError msgStartFailed])

/-- `speakResponse` (App.tsx lines 298-338). `ttsOk` is the outcome of
the TTS request plus playback start (any throw lands in the catch);
`synthAvail` models `window.speechSynthesis` being available. On
failure a warning toast is shown and, when available, the local
synthesizer speaks the same text. -/
def speakResponse (ttsOk synthAvail : Bool) (text : Str) : List Effect :=
  if ttsOk then
    [Effect.ttsRequest text, Effect.playAudio]
  else
    [Effect.ttsRequest text, Effect.toastWarning msgSpeechWarn]
      ++ (if synthAvail then [Effect.fallbackSpeak text] else [])

/-- `stopListening` (App.tsx lines 173-296). Oracles: `blobOk` is
`blob.size > 0` for the finalized recording; `tr` is the transcription
outcome (`none` = the request threw; `some t` = it returned text `t`,
where empty `t` also covers a missing `text` field — both fail the
`!transcription.text` check); `qd` is the backend fetch outcome
(`none` = network/JSON failure). The guard on a missing recorder /
`isListening` is modelled by `isListening` alone (the recorder is set
exactly while listening). Every exit restores `isProcessing := false`
via the `finally` block. -/
def stopListening (blobOk : Bool) (tr : Option Str) (qd : Option QueryData)
    (ttsOk synthAvail : Bool) (s : UIState) : UIState × List Effect :=
  if ¬ s.isListening then (s, [])
  else
    let s1 := { s with isListening := false, isProcessing := true }
    if ¬ blobOk then
      ({ s1 with isProcessing := false }, [Effect.toastError msgNoAudio])
    else
      match tr with
      | none =>
        ({ s1 with isProcessing := false },
          [Effect.transcriptionRequest, Effect.toastError msgTranscriptionFailed])
      | some t =>
        if t.isEmpty then
          ({ s1 with isProcessing := false },
            [Effect.transcriptionRequest, Effect.toastError msgNoTranscription])
        else
          let s2 := { s1 with transcript := t }
          match qd with
          | none =>
            ({ s2 with isProcessing := false },
              [Effect.transcriptionRequest, Effect.queryRequest t,
               Effect.toastError msgQueryFailed])
          | some d =>
            if ¬ d.okFlag then
              ({ s2 with isProcessing := false },
                [Effect.transcriptionRequest, Effect.queryRequest t,
                 Effect.toastError msgHttpError])
            else if falsyStr d.story_description then
              ({ s2 with isProcessing := false },
                [Effect.transcriptionRequest, Effect.queryRequest t,
                 Effect.toastError msgNoStory])
            else if d.image_metadata.isNone then
              ({ s2 with isProcessing := false },
                [Effect.transcriptionRequest, Effect.queryRequest t,
                 Effect.toastError msgBadMeta])
            else
              let story := d.story_description.getD []
              let imgs := d.image_metadata.getD []
              ({ s2 with response := story, images := imgs,
                         currentImageIndex := 0, imageLoadError := none,
                         isProcessing := false },
                [Effect.transcriptionRequest, Effect.queryRequest t]
                  ++ speakResponse ttsOk synthAvail story)

/-- `handleImageError` (App.tsx lines 79-90): records the failure for
the resolved path and shows a warning; cursor and images untouched. -/
def handleImageError (p : Str) (s : UIState) : UIState × List Effect :=
  let full := getImagePath p
  ({ s with imageLoadError := some (msgFailedLoad ++ full) },
    [Effect.toastWarning (msgFailedLoad ++ full)])

/-- The `onClick` of the Next arrow (App.tsx lines 623-627) guarded by
its `isDisabled={uniqueImages.length <= 1}` (line 628): advance the
cursor modulo `n`. On in-range JS numbers this `%` agrees with `Int`
euclidean mod since the dividend is nonnegative. -/
def nextClick (n i : Int) : Int :=
  if n ≤ 1 then i else (i + 1) % n

/-- The `onClick` of the Previous arrow (App.tsx lines 606-610) guarded
by its `isDisabled` (line 611): retreat with wraparound, adding `n`
before the `%` exactly as the source does. -/
def prevClick (n i : Int) : Int :=
  if n ≤ 1 then i else (i - 1 + n) % n

/-- `nextImage` (App.tsx lines 107-109). Defined over the raw
`images.length`; this callback is not referenced by the rendered
carousel, which inlines `nextClick` over `uniqueImages.length`. -/
def nextImage (s : UIState) : UIState :=
  { s with currentImageIndex := (s.currentImageIndex + 1) % (s.images.length : Int) }

/-- `prevImage` (App.tsx lines 111-113); likewise unused by the UI. -/
def prevImage (s : UIState) : UIState :=
  { s with currentImageIndex :=
      (s.currentImageIndex - 1 + (s.images.length : Int)) % (s.images.length : Int) }

/-- The user-visible operations that can touch gallery state. -/
inductive Op where
  | start (micOk : Bool)
  | stop (blobOk : Bool) (tr : Option Str) (qd : Option QueryData)
      (ttsOk synthAvail : Bool)
  | navNext
  | navPrev
  | imgError (p : Str)

/-- State transition of each operation (effects dropped). Navigation
acts through the carousel buttons, i.e. modulo the deduplicated
count with the `≤ 1` disable guard. -/
def applyOp : Op → UIState → UIState
  | .start micOk, s => (startListening micOk s).1
  | .stop b tr qd t sa, s => (stopListening b tr qd t sa s).1
  | .navNext, s =>
    { s with currentImageIndex :=
        nextClick ((uniqueImages s.images).length : Int) s.currentImageIndex }
  | .navPrev, s =>
    { s with currentImageIndex :=
        prevClick ((uniqueImages s.images).length : Int) s.currentImageIndex }
  | .imgError p, s => (handleImageError p s).1

/-- Gallery invariant: whenever the deduplicated list is non-empty the
cursor is a valid index into it. -/
def galleryInv (s : UIState) : Prop :=
  uniqueImages s.images ≠ [] →
    0 ≤ s.currentImageIndex ∧
      s.currentImageIndex < ((uniqueImages s.images).length : Int)

/-- A concrete image record for examples: all textual metadata empty
except the path. -/
def imgMeta (n : Int) (p : String) : ImageMetadata :=
  ⟨n, [], [], [], [], p.data⟩

/-! ## Lemmas about `uniqueImages` -/

theorem uniqueImagesAux_sublist (l : List ImageMetadata) :
    ∀ seen, (uniqueImagesAux seen l).Sublist l := by
  induction l with
  | nil => intro seen; simp [uniqueImagesAux]
  | cons a rest ih =>
    intro seen
    by_cases hmem : a.image_path ∈ seen
    · simp only [uniqueImagesAux, if_pos hmem]
      exact (ih seen).cons a
    · simp only [uniqueImagesAux, if_neg hmem]
      exact (ih _).cons₂ a

theorem uniqueImagesAux_not_seen (l : List ImageMetadata) :
    ∀ seen img, img ∈ uniqueImagesAux seen l → img.image_path ∉ seen := by
  induction l with
  | nil => intro seen img h; simp [uniqueImagesAux] at h
  | cons a rest ih =>
    intro seen img h
    by_cases hmem : a.image_path ∈ seen
    · simp only [uniqueImagesAux, if_pos hmem] at h
      exact ih seen img h
    · simp only [uniqueImagesAux, if_neg hmem] at h
      rcases List.mem_cons.mp h with rfl | h2
      · exact hmem
      · have h3 := ih _ img h2
        intro hc
        exact h3 (List.mem_cons_of_mem _ hc)

theorem uniqueImagesAux_nodup (l : List ImageMetadata) :
    ∀ seen, ((uniqueImagesAux seen l).map ImageMetadata.image_path).Nodup := by
  induction l with
  | nil => intro seen; simp [uniqueImagesAux]
  | cons a rest ih =>
    intro seen
    by_cases hmem : a.image_path ∈ seen
    · simp only [uniqueImagesAux, if_pos hmem]
      exact ih seen
    · simp only [uniqueImagesAux, if_neg hmem, List.map_cons, List.nodup_cons]
      refine ⟨?_, ih _⟩
      intro hc
      rcases List.mem_map.mp hc with ⟨img, himg, hpath⟩
      have h3 := uniqueImagesAux_not_seen rest _ img himg
      exact h3 (by rw [hpath]; exact List.mem_cons_self _ _)

theorem uniqueImagesAux_find (l : List ImageMetadata) :
    ∀ seen img, img ∈ uniqueImagesAux seen l →
      l.find? (fun i => decide (i.image_path = img.image_path)) = some img := by
  induction l with
  | nil => intro seen img h; simp [uniqueImagesAux] at h
  | cons a rest ih =>
    intro seen img h
    by_cases hmem : a.image_path ∈ seen
    · simp only [uniqueImagesAux, if_pos hmem] at h
      have hne : ¬ (a.image_path = img.image_path) := by
        intro he
        exact uniqueImagesAux_not_seen rest seen img h (by rw [← he]; exact hmem)
      rw [List.find?_cons_of_neg]
      · exact ih seen img h
      · simpa using hne
    · simp only [uniqueImagesAux, if_neg hmem] at h
      rcases List.mem_cons.mp h with rfl | h2
      · rw [List.find?_cons_of_pos _ (by simp)]
      · have hne : ¬ (a.image_path = img.image_path) := by
          intro he
          have h3 := uniqueImagesAux_not_seen rest _ img h2
          exact h3 (by rw [← he]; exact List.mem_cons_self _ _)
        rw [List.find?_cons_of_neg]
        · exact ih _ img h2
        · simpa using hne

theorem uniqueImagesAux_mem_of_find (l : List ImageMetadata) :
    ∀ seen img,
      l.find? (fun i => decide (i.image_path = img.image_path)) = some img →
      img.image_path ∉ seen → img ∈ uniqueImagesAux seen l := by
  induction l with
  | nil => intro seen img h _; simp [List.find?] at h
  | cons a rest ih =>
    intro seen img h hns
    by_cases hpa : a.image_path = img.image_path
    · rw [List.find?_cons_of_pos _ (by simpa using hpa)] at h
      have ha : a = img := Option.some.inj h
      subst ha
      simp only [uniqueImagesAux, if_neg hns]
      exact List.mem_cons_self _ _
    · rw [List.find?_cons_of_neg _ (by simpa using hpa)] at h
      by_cases hmem : a.image_path ∈ seen
      · simp only [uniqueImagesAux, if_pos hmem]
        exact ih seen img h hns
      · simp only [uniqueImagesAux, if_neg hmem]
        refine List.mem_cons_of_mem _ (ih _ img h ?_)
        intro hc
        rcases List.mem_cons.mp hc with he | hseen
        · exact hpa he.symm
        · exact hns hseen

/-! ## Lemmas about carousel navigation and path normalization -/

theorem nextClick_iterate (n : Int) (hn : 1 < n) :
    ∀ (k : Nat) (i : Int), 0 ≤ i → i < n →
      (nextClick n)^[k] i = (i + k) % n := by
  intro k
  induction k with
  | zero =>
    intro i h0 h1
    simp [Int.emod_eq_of_lt h0 h1]
  | succ k ih =>
    intro i h0 h1
    rw [Function.iterate_succ_apply]
    have hne : nextClick n i = (i + 1) % n := by
      unfold nextClick
      rw [if_neg (by omega)]
    rw [hne]
    rw [ih _ (Int.emod_nonneg _ (by omega)) (Int.emod_lt_of_pos _ (by omega))]
    rw [Int.emod_add_emod]
    push_cast
    have harith : i + 1 + (k : Int) = i + ((k : Int) + 1) := by ring
    rw [harith]

theorem startsWithStr_append (pre : Str) :
    ∀ rest, startsWithStr (pre ++ rest) pre = true := by
  induction pre with
  | nil => intro rest; simp [startsWithStr]
  | cons c cs ih =>
    intro rest
    simp only [List.cons_append, startsWithStr, Bool.and_eq_true, beq_self_eq_true]
    exact ⟨trivial, ih rest⟩

/-! ## Shape lemmas for `stopListening` -/

theorem stopListening_success (tts sa : Bool) (s : UIState) (t : Str) (d : QueryData)
    (hL : s.isListening = true) (hT : t.isEmpty = false) (hOk : d.okFlag = true)
    (hS : falsyStr d.story_description = false) (hM : d.image_metadata.isNone = false) :
    stopListening true (some t) (some d) tts sa s
      = ({ s with isListening := false, isProcessing := false, transcript := t,
                  response := d.story_description.getD [],
                  images := d.image_metadata.getD [],
                  currentImageIndex := 0, imageLoadError := none },
         [Effect.transcriptionRequest, Effect.queryRequest t]
           ++ speakResponse tts sa (d.story_description.getD [])) := by
  unfold stopListening
  simp [hL, hT, hOk, hS, hM]

theorem stopListening_gallery_cases (b : Bool) (tr : Option Str) (qd : Option QueryData)
    (tts sa : Bool) (s : UIState) :
    ((stopListening b tr qd tts sa s).1.images = s.images
      ∧ (stopListening b tr qd tts sa s).1.currentImageIndex = s.currentImageIndex)
    ∨ (stopListening b tr qd tts sa s).1.currentImageIndex = 0 := by
  unfold stopListening
  cases hL : s.isListening with
  | false => simp
  | true =>
    cases b with
    | false => simp
    | true =>
      cases tr with
      | none => simp
      | some t =>
        cases hT : t.isEmpty with
        | true => simp [hT]
        | false =>
          cases qd with
          | none => simp [hT]
          | some d =>
            cases hOk : d.okFlag with
            | false => simp [hT, hOk]
            | true =>
              cases hS : falsyStr d.story_description with
              | true => simp [hT, hOk, hS]
              | false =>
                cases hM : d.image_metadata.isNone with
                | true => simp [hT, hOk, hS, hM]
                | false => simp [hT, hOk, hS, hM]

/-! ## Sample states and data for concrete instantiations -/

/-- An idle post-session state: images and an image-load error from the
previous session are still present. -/
def staleState : UIState :=
  { isListening := false, isProcessing := false, transcript := "old".data,
    response := "story".data, images := [imgMeta 1 "a.jpg"],
    currentImageIndex := 0, imageLoadError := some msgFailedLoad,
    audioChunks := [] }

/-- A listening state about to be stopped. -/
def listenState : UIState :=
  { isListening := true, isProcessing := false, transcript := [],
    response := [], images := [], currentImageIndex := 0,
    imageLoadError := none, audioChunks := [3] }

/-- A structurally valid backend response. -/
def okData : QueryData :=
  { okFlag := true,
    story_description := some "Here are your beach memories".data,
    image_metadata := some [imgMeta 1 "IMG1.jpg", imgMeta 2 "IMG2.jpg"] }

/-- A response with an absent `story_description` field. -/
def badData : QueryData :=
  { okFlag := true, story_description := none, image_metadata := some [] }

/-! ## Claim theorems -/

/-- C1: for every list of `ImageMetadata` passed to the gallery, the
deduplicated list has no two entries with equal `image_path`, is a
subsequence of the input (so the relative order of the kept entries is
preserved), and its members are exactly the first occurrence of each
path in the input; the example paths `[a.jpg, b.jpg, a.jpg, c.jpg]`
dedup to `[a.jpg, b.jpg, c.jpg]`. -/
theorem uniqueImages_dedup_correct :
    (∀ l : List ImageMetadata,
        ((uniqueImages l).map ImageMetadata.image_path).Nodup
        ∧ (uniqueImages l).Sublist l
        ∧ ∀ img, img ∈ uniqueImages l ↔
            l.find? (fun i => decide (i.image_path = img.image_path)) = some img)
    ∧ (uniqueImages [imgMeta 1 "a.jpg", imgMeta 2 "b.jpg", imgMeta 3 "a.jpg",
          imgMeta 4 "c.jpg"]).map ImageMetadata.image_path
        = ["a.jpg".data, "b.jpg".data, "c.jpg".data] := by
  constructor
  · intro l
    refine ⟨uniqueImagesAux_nodup l [], uniqueImagesAux_sublist l [], ?_⟩
    intro img
    constructor
    · exact uniqueImagesAux_find l [] img
    · intro h
      exact uniqueImagesAux_mem_of_find l [] img h (by simp)
  · decide

/-- C1 witness: the general part instantiated on the concrete
four-element example list. -/
theorem uniqueImages_dedup_correct_witness :
    ((uniqueImages [imgMeta 1 "a.jpg", imgMeta 2 "b.jpg", imgMeta 3 "a.jpg",
        imgMeta 4 "c.jpg"]).map ImageMetadata.image_path).Nodup :=
  (uniqueImages_dedup_correct.1 [imgMeta 1 "a.jpg", imgMeta 2 "b.jpg",
      imgMeta 3 "a.jpg", imgMeta 4 "c.jpg"]).1

/-- C2 counterexample: with stored paths `IMG1.jpg` and
`images/IMG1.jpg` the gallery does not show exactly 1 unique image — the
two raw paths differ, dedup compares raw paths, and even the normalized
forms differ (`/images/IMG1.jpg` vs `/images/images/IMG1.jpg`, because
only a leading `/images/` counts as already prefixed). -/
theorem scenarioA_one_image_false :
    ¬ ((uniqueImages [imgMeta 1 "IMG1.jpg", imgMeta 2 "images/IMG1.jpg"]).length
        = 1) := by decide

/-- C2 amended: for a response with image paths `IMG1.jpg` and
`images/IMG1.jpg` the gallery shows 2 unique images: dedup is by the raw
stored path, and path normalization maps them to the distinct
`/images/IMG1.jpg` and `/images/images/IMG1.jpg` (a bare filename and a
path without the leading slash both just get `/images/` prepended). -/
theorem scenarioA_two_images :
    (uniqueImages [imgMeta 1 "IMG1.jpg", imgMeta 2 "images/IMG1.jpg"]).length = 2
    ∧ getImagePath "IMG1.jpg".data = "/images/IMG1.jpg".data
    ∧ getImagePath "images/IMG1.jpg".data = "/images/images/IMG1.jpg".data
    ∧ getImagePath "IMG1.jpg".data ≠ getImagePath "images/IMG1.jpg".data := by
  decide

/-- C3 counterexample: a Start transition from an idle state that still
holds the previous session's images and image-load error does not clear
them — the image and image-error state of the prior session is still
present after `startListening`. -/
theorem start_leaves_images_and_error :
    (startListening true staleState).1.images = [imgMeta 1 "a.jpg"]
    ∧ (startListening true staleState).1.imageLoadError ≠ none := by decide

/-- C3 amended: every Start transition (from Idle or from Error) clears
the transcript, the narrative response, the audio-chunk buffer and the
processing flag before the new session, but the prior image list, image
cursor and image-load-error state persist until the next accepted
QueryResult replaces them. -/
theorem startListening_resets :
    ∀ (micOk : Bool) (s : UIState),
      ((startListening micOk s).1.transcript = []
        ∧ (startListening micOk s).1.response = []
        ∧ (startListening micOk s).1.audioChunks = []
        ∧ (startListening micOk s).1.isProcessing = false)
      ∧ ((startListening micOk s).1.images = s.images
        ∧ (startListening micOk s).1.currentImageIndex = s.currentImageIndex
        ∧ (startListening micOk s).1.imageLoadError = s.imageLoadError) := by
  intro micOk s
  cases micOk <;> simp [startListening]

/-- C4 counterexample: microphone failure on Start does not leave all
session state unchanged — the pre-acquisition reset has already cleared
the transcript (and response), so the resulting state differs from the
starting state. -/
theorem micFailure_state_changed :
    (startListening false staleState).1 ≠ staleState := by decide

/-- C4 amended: if microphone acquisition fails on Start, a user-facing
error toast is surfaced, no network call is issued, and no session
starts (`isListening` is unchanged); the state is not fully unchanged,
however: it equals the starting state with transcript, response, chunk
buffer and processing flag already reset. -/
theorem micFailure_no_network :
    ∀ s : UIState,
      (startListening false s).1
        = { s with transcript := [], response := [], audioChunks := [],
                   isProcessing := false }
      ∧ (startListening false s).1.isListening = s.isListening
      ∧ ((startListening false s).2.any Effect.isNetworkCall) = false
      ∧ Effect.toastError msgStartFailed ∈ (startListening false s).2 := by
  intro s
  refine ⟨rfl, rfl, rfl, ?_⟩
  simp [startListening]

/-- C10: for every input string `p`, `getImagePath p` starts with the
display root `/images/`, and `getImagePath` is idempotent. -/
theorem getImagePath_root_idem :
    ∀ p : Str,
      startsWithStr (getImagePath p) IMAGES = true
      ∧ getImagePath (getImagePath p) = getImagePath p := by
  intro p
  by_cases h : startsWithStr p IMAGES = true
  · refine ⟨by simp [getImagePath, h], ?_⟩
    simp [getImagePath, h]
  · have hs := startsWithStr_append IMAGES p
    refine ⟨by simp [getImagePath, h, hs], ?_⟩
    simp [getImagePath, h, hs]

/-- C7: on a deduplicated gallery of size `n > 1` each Next/Previous
click maps an index in `[0, n)` to an index in `[0, n)` (wraparound
modulo `n`), and `n` Next clicks return to the starting index; for
`n ≤ 1` both clicks are no-ops (the buttons are disabled). -/
theorem carousel_navigation_cycle :
    (∀ n i : Int, 1 < n → 0 ≤ i → i < n →
        (0 ≤ nextClick n i ∧ nextClick n i < n
          ∧ 0 ≤ prevClick n i ∧ prevClick n i < n)
        ∧ (nextClick n)^[n.toNat] i = i)
    ∧ ∀ n i : Int, n ≤ 1 → nextClick n i = i ∧ prevClick n i = i := by
  constructor
  · intro n i hn h0 h1
    constructor
    · unfold nextClick prevClick
      rw [if_neg (by omega), if_neg (by omega)]
      exact ⟨Int.emod_nonneg _ (by omega), Int.emod_lt_of_pos _ (by omega),
             Int.emod_nonneg _ (by omega), Int.emod_lt_of_pos _ (by omega)⟩
    · rw [nextClick_iterate n hn n.toNat i h0 h1]
      rw [Int.toNat_of_nonneg (by omega : (0:Int) ≤ n)]
      have h2 : i + n = i + n * 1 := by ring
      rw [h2, Int.add_mul_emod_self_left]
      exact Int.emod_eq_of_lt h0 h1
  · intro n i hn
    unfold nextClick prevClick
    rw [if_pos hn, if_pos hn]
    exact ⟨rfl, rfl⟩

/-- C7 witness: instantiation at gallery size 3, index 1 and at the
disabled size 1, index 0. -/
theorem carousel_navigation_cycle_witness :
    ((0 ≤ nextClick 3 1 ∧ nextClick 3 1 < 3
        ∧ 0 ≤ prevClick 3 1 ∧ prevClick 3 1 < 3)
      ∧ (nextClick 3)^[(3:Int).toNat] 1 = 1)
    ∧ (nextClick 1 0 = 0 ∧ prevClick 1 0 = 0) :=
  ⟨carousel_navigation_cycle.1 3 1 (by decide) (by decide) (by decide),
   carousel_navigation_cycle.2 1 0 (by decide)⟩

/-- C5: a backend response whose `story_description` is absent or empty,
or whose `image_metadata` is not an array, is rejected before any UI
update — narrative, image list, cursor and image-error state are all
unchanged; an empty `image_metadata` array with a non-empty story is
accepted and does update the narrative and images. -/
theorem invalid_response_no_update :
    ∀ (tts sa : Bool) (s : UIState) (t : Str) (d : QueryData),
      s.isListening = true → t.isEmpty = false → d.okFlag = true →
      ((falsyStr d.story_description = true ∨ d.image_metadata = none) →
        ((stopListening true (some t) (some d) tts sa s).1.response = s.response
          ∧ (stopListening true (some t) (some d) tts sa s).1.images = s.images
          ∧ (stopListening true (some t) (some d) tts sa s).1.currentImageIndex
              = s.currentImageIndex
          ∧ (stopListening true (some t) (some d) tts sa s).1.imageLoadError
              = s.imageLoadError))
      ∧ (falsyStr d.story_description = false → d.image_metadata = some [] →
          (stopListening true (some t) (some d) tts sa s).1.response
              = d.story_description.getD []
          ∧ (stopListening true (some t) (some d) tts sa s).1.images = []) := by
  intro tts sa s t d hL hT hOk
  constructor
  · intro hbad
    rcases hbad with hS | hM
    · unfold stopListening
      simp [hL, hT, hOk, hS]
    · by_cases hS : falsyStr d.story_description
      · unfold stopListening
        simp [hL, hT, hOk, hS]
      · unfold stopListening
        simp [hL, hT, hOk, hS, hM]
  · intro hS hM
    rw [stopListening_success tts sa s t d hL hT hOk
          (by simpa using hS) (by simp [hM])]
    simp [hM]

/-- C5 witness: a response with an absent `story_description` leaves the
narrative, images, cursor and image-error state of a listening session
unchanged. -/
theorem invalid_response_no_update_witness :
    (stopListening true (some "hi".data) (some badData) true true
        listenState).1.response = listenState.response
    ∧ (stopListening true (some "hi".data) (some badData) true true
        listenState).1.images = listenState.images
    ∧ (stopListening true (some "hi".data) (some badData) true true
        listenState).1.currentImageIndex = listenState.currentImageIndex
    ∧ (stopListening true (some "hi".data) (some badData) true true
        listenState).1.imageLoadError = listenState.imageLoadError :=
  (invalid_response_no_update true true listenState "hi".data badData rfl
      (by decide) rfl).1 (Or.inl (by decide))

/-- C6: a failed (or empty) transcription never issues the backend query
call, and a failed query (network failure or non-2xx status) never
invokes Speech Playback and never updates the gallery. -/
theorem stage_failure_gating :
    ∀ (b : Bool) (tr : Option Str) (qd : Option QueryData) (tts sa : Bool)
      (s : UIState),
      ((tr = none ∨ tr = some []) →
        ((stopListening b tr qd tts sa s).2.any Effect.isQueryCall) = false)
      ∧ ((qd = none ∨ ∃ d, qd = some d ∧ d.okFlag = false) →
        ((stopListening b tr qd tts sa s).2.any Effect.isSpeechCall) = false
        ∧ (stopListening b tr qd tts sa s).1.images = s.images
        ∧ (stopListening b tr qd tts sa s).1.currentImageIndex
            = s.currentImageIndex) := by
  intro b tr qd tts sa s
  constructor
  · intro htr
    unfold stopListening
    cases hL : s.isListening with
    | false => simp
    | true =>
      cases b with
      | false => simp [Effect.isQueryCall]
      | true =>
        rcases htr with rfl | rfl
        · simp [Effect.isQueryCall]
        · simp [Effect.isQueryCall]
  · intro hqd
    unfold stopListening
    cases hL : s.isListening with
    | false => simp
    | true =>
      cases b with
      | false => simp [Effect.isSpeechCall]
      | true =>
        cases tr with
        | none => simp [Effect.isSpeechCall]
        | some t =>
          cases hT : t.isEmpty with
          | true => simp [hT, Effect.isSpeechCall]
          | false =>
            rcases hqd with rfl | ⟨d, rfl, hOk⟩
            · simp [hT, Effect.isSpeechCall]
            · simp [hT, hOk, Effect.isSpeechCall]

/-- C6 witness: a transcription failure issues no query call, and a
query network failure invokes no Speech Playback. -/
theorem stage_failure_gating_witness :
    ((stopListening true none (some okData) true true
        listenState).2.any Effect.isQueryCall) = false
    ∧ ((stopListening true (some "hi".data) none true true
        listenState).2.any Effect.isSpeechCall) = false :=
  ⟨(stage_failure_gating true none (some okData) true true listenState).1
      (Or.inl rfl),
   ((stage_failure_gating true (some "hi".data) none true true listenState).2
      (Or.inl rfl)).1⟩

/-- Helper: the gallery invariant only depends on the images and the
cursor, so replacing the cursor by a value that is valid for the held
images preserves it. -/
theorem galleryInv_mk (s : UIState) (j : Int)
    (hj : uniqueImages s.images ≠ [] →
      0 ≤ j ∧ j < ((uniqueImages s.images).length : Int)) :
    galleryInv { s with currentImageIndex := j } := by
  intro hne
  exact hj hne

/-- C8: the invariant `0 ≤ currentImageIndex < (uniqueImages images).length`
(whenever the deduplicated list is non-empty) is preserved by every
operation — Start, Stop in all its outcomes, carousel navigation, and
image-load errors — and the cursor is reset to 0 by every accepted
QueryResult. -/
theorem galleryInv_preserved :
    (∀ (op : Op) (s : UIState), galleryInv s → galleryInv (applyOp op s))
    ∧ ∀ (tts sa : Bool) (s : UIState) (t : Str) (d : QueryData),
        s.isListening = true → t.isEmpty = false → d.okFlag = true →
        falsyStr d.story_description = false → d.image_metadata.isNone = false →
        (stopListening true (some t) (some d) tts sa s).1.currentImageIndex
          = 0 := by
  constructor
  · intro op s h
    cases op with
    | start micOk =>
      cases micOk <;> intro hne <;> exact h hne
    | stop b tr qd tts sa =>
      rcases stopListening_gallery_cases b tr qd tts sa s with ⟨hi, hx⟩ | hx
      · intro hne
        simp only [applyOp] at hne ⊢
        rw [hi] at hne
        rw [hi, hx]
        exact h hne
      · intro hne
        simp only [applyOp] at hne ⊢
        rw [hx]
        exact ⟨le_refl 0, by exact_mod_cast List.length_pos.mpr hne⟩
    | navNext =>
      refine galleryInv_mk s _ ?_
      intro hne
      have hlen : 0 < ((uniqueImages s.images).length : Int) := by
        exact_mod_cast List.length_pos.mpr hne
      by_cases hn1 : ((uniqueImages s.images).length : Int) ≤ 1
      · have h2 := h hne
        simpa [nextClick, hn1] using h2
      · unfold nextClick
        rw [if_neg hn1]
        exact ⟨Int.emod_nonneg _ (by omega), Int.emod_lt_of_pos _ (by omega)⟩
    | navPrev =>
      refine galleryInv_mk s _ ?_
      intro hne
      have hlen : 0 < ((uniqueImages s.images).length : Int) := by
        exact_mod_cast List.length_pos.mpr hne
      by_cases hn1 : ((uniqueImages s.images).length : Int) ≤ 1
      · have h2 := h hne
        simpa [prevClick, hn1] using h2
      · unfold prevClick
        rw [if_neg hn1]
        exact ⟨Int.emod_nonneg _ (by omega), Int.emod_lt_of_pos _ (by omega)⟩
    | imgError p =>
      intro hne
      exact h hne
  · intro tts sa s t d hL hT hOk hS hM
    rw [stopListening_success tts sa s t d hL hT hOk hS hM]

/-- C8 witness: a Next click on a two-image gallery keeps the invariant,
and an accepted QueryResult on a listening session resets the cursor. -/
theorem galleryInv_preserved_witness :
    galleryInv (applyOp Op.navNext staleState)
    ∧ (stopListening true (some "hi".data) (some okData) true true
        listenState).1.currentImageIndex = 0 :=
  ⟨galleryInv_preserved.1 Op.navNext staleState (fun _ => by decide),
   galleryInv_preserved.2 true true listenState "hi".data okData rfl
      (by decide) rfl (by decide) (by decide)⟩

/-- C9: when the TTS synthesis call fails, the on-device fallback
synthesizer (when available) is invoked with the same narrative text,
only a non-blocking warning toast is surfaced (no error toast from the
playback stage), and the session still ends in success: the narrative
and the images from the accepted QueryResult are displayed. -/
theorem tts_failure_nonfatal :
    ∀ (sa : Bool) (s : UIState) (t : Str) (d : QueryData),
      s.isListening = true → t.isEmpty = false → d.okFlag = true →
      falsyStr d.story_description = false → d.image_metadata.isNone = false →
      (Effect.ttsRequest (d.story_description.getD [])
          ∈ (stopListening true (some t) (some d) false sa s).2)
      ∧ (sa = true →
          Effect.fallbackSpeak (d.story_description.getD [])
            ∈ (stopListening true (some t) (some d) false sa s).2)
      ∧ Effect.toastWarning msgSpeechWarn
          ∈ (stopListening true (some t) (some d) false sa s).2
      ∧ ((stopListening true (some t) (some d) false sa s).2.any
            Effect.isErrorToast) = false
      ∧ (stopListening true (some t) (some d) false sa s).1.response
          = d.story_description.getD []
      ∧ (stopListening true (some t) (some d) false sa s).1.images
          = d.image_metadata.getD [] := by
  intro sa s t d hL hT hOk hS hM
  rw [stopListening_success false sa s t d hL hT hOk hS hM]
  cases sa <;> simp [speakResponse, Effect.isErrorToast]

/-- C9 witness: with the fallback synthesizer available, a TTS failure
after an accepted QueryResult invokes the fallback with the narrative. -/
theorem tts_failure_nonfatal_witness :
    Effect.fallbackSpeak (okData.story_description.getD [])
      ∈ (stopListening true (some "hi".data) (some okData) false true
          listenState).2 :=
  ((tts_failure_nonfatal true listenState "hi".data okData rfl (by decide) rfl
      (by decide) (by decide)).2.1 rfl)

end ThirdEye
